import Mathlib

/-!
Shallow embedding of `src/app.py` (Automatic-Ledger): the balance-computation
engine `calculate_balance_and_type` and the spreadsheet exporter
`create_excel_download`, together with theorems settling the specification
claims about them.

Numeric amounts and balances (Python `float64` after `pd.to_numeric`) are
modelled as rationals `ℚ` with exact arithmetic.
-/

namespace Ledger

/-- A raw amount cell as it arrives in the source table, before coercion:
either a value that parses as a number, or anything that does not
(blank, non-numeric text, missing — coercing pd.to_numeric turns all of
those into NaN). -/
inductive AmtCell
  | num (q : ℚ)
  | invalid
  deriving DecidableEq, Repr

/-- Numeric coercion, app.py lines 29-30 (pd.to_numeric with coerce followed
by fillna 0): a parseable number keeps its value, everything else becomes 0. -/
def toNumeric : AmtCell → ℚ
  | .num q => q
  | .invalid => 0

/-- Input row of the dataframe handed to `calculate_balance_and_type`:
`Date` (missing/NaT modelled as `none`), `Particulars`, optional `C/F`
(absent column or NA modelled as `none`), and the two raw amount fields. -/
structure RawRow where
  date : Option String
  particulars : String
  cf : Option String
  dr : AmtCell
  cr : AmtCell
  deriving DecidableEq, Repr

/-- Output row: same payload with the amounts coerced to numbers and the
derived `Balance (₹)` and `Type (Dr/Cr)` columns filled in. -/
structure AnnRow where
  date : Option String
  particulars : String
  cf : Option String
  dr : ℚ
  cr : ℚ
  balance : ℚ
  type : String
  deriving DecidableEq, Repr

/-- One iteration of the loop body (app.py lines 42-49): given the running
balance and the coerced amounts, the new balance and the `Type (Dr/Cr)` tag.
Debit is checked first; an `elif` means a row with both amounts positive
applies only the debit. -/
def processRow (bal dr cr : ℚ) : ℚ × String :=
  if dr > 0 then (bal - dr, "Dr")
  else if cr > 0 then (bal + cr, "Cr")
  else (bal, "")

/-- The loop of app.py lines 38-51, threading `current_balance` through the
rows in order and recording the post-transaction balance on each row. -/
def calcRows (bal : ℚ) : List RawRow → List AnnRow
  | [] => []
  | r :: rs =>
    let dr := toNumeric r.dr
    let cr := toNumeric r.cr
    let step := processRow bal dr cr
    { date := r.date, particulars := r.particulars, cf := r.cf,
      dr := dr, cr := cr, balance := step.1, type := step.2 } :: calcRows step.1 rs

/-- The engine entry point `calculate_balance_and_type` (app.py lines
24-53): coerce the amount columns, then fold the balance through the rows. -/
def calculate_balance_and_type (rows : List RawRow) (initial_balance : ℚ) : List AnnRow :=
  calcRows initial_balance rows

/-- State-passing view of a call to `calculate_balance_and_type`: the pair
(caller's dataframe after the call, returned dataframe).  Line 26
`df = df.copy()` rebinds `df` to a fresh copy, so every subsequent write
(lines 29-51) targets the copy and the caller's object is never written;
the caller's rows pass through unchanged. -/
def calculate_balance_and_type_call (rows : List RawRow) (initial_balance : ℚ) :
    List RawRow × List AnnRow :=
  let copy := rows
  (rows, calcRows initial_balance copy)

/-- The per-row contribution of a row to the running balance: `-dr` when the
debit branch fires, `+cr` when the credit branch fires, `0` otherwise. -/
def eff (dr cr : ℚ) : ℚ :=
  if dr > 0 then -dr else if cr > 0 then cr else 0

/-- Sum of coerced debit amounts over a row list. -/
def sumDr (rows : List RawRow) : ℚ := (rows.map (fun r => toNumeric r.dr)).sum

/-- Sum of coerced credit amounts over a row list. -/
def sumCr (rows : List RawRow) : ℚ := (rows.map (fun r => toNumeric r.cr)).sum

/-- Sum of the per-row balance contributions over a row list. -/
def effSum (rows : List RawRow) : ℚ :=
  (rows.map (fun r => eff (toNumeric r.dr) (toNumeric r.cr))).sum

/-- Drop the derived `Balance (₹)` / `Type (Dr/Cr)` columns of an annotated
row, turning it back into an input row (the already-coerced amounts are
numeric cells). -/
def stripDerived (r : AnnRow) : RawRow :=
  { date := r.date, particulars := r.particulars, cf := r.cf,
    dr := .num r.dr, cr := .num r.cr }

/-! ### The exporter `create_excel_download` (app.py lines 61-127)

A worksheet is modelled as a list of rows, each row a list of 7 cells
(columns 1-7 of the sheet); a cell is `none` when the code never writes it
(openpyxl leaves it empty) and `some v` when a value was written. -/

/-- A value written into a worksheet cell: a string or a number. -/
inductive XVal
  | s (v : String)
  | n (v : ℚ)
  deriving DecidableEq, Repr

/-- The fixed header row (app.py line 71). -/
def headers : List String :=
  ["Date", "Particulars", "C/F", "Dr Amount (₹)", "Cr Amount (₹)", "Balance (₹)", "Type (Dr/Cr)"]

/-- Worksheet row 1: every header cell written (app.py lines 72-75;
font/fill are presentation only and not modelled). -/
def headerRow : List (Option XVal) := headers.map (fun h => some (.s h))

/-- Worksheet row 2, the opening-balance marker row (app.py lines 78-81):
columns 1 and 2 carry the text "Opening Balance", column 6 the opening
balance, column 7 the tag "Opening"; columns 3-5 are never written. -/
def openingRow (initial_balance : ℚ) : List (Option XVal) :=
  [some (.s "Opening Balance"), some (.s "Opening Balance"), none, none,
   none, some (.n initial_balance), some (.s "Opening")]

/-- One data row of the worksheet (app.py lines 87-110): Date only when
present, Particulars always, C/F only when present, Dr/Cr amounts only when
strictly positive, Balance and Type always. -/
def dataRow (r : AnnRow) : List (Option XVal) :=
  [r.date.map (fun d => .s d),
   some (.s r.particulars),
   r.cf.map (fun c => .s c),
   if r.dr > 0 then some (.n r.dr) else none,
   if r.cr > 0 then some (.n r.cr) else none,
   some (.n r.balance),
   some (.s r.type)]

/-- The worksheet grid built by `create_excel_download(df, initial_balance)`
(app.py lines 61-110, before column sizing): header row, opening-balance
row, then one row per dataframe row in order. -/
def create_excel_download (df : List AnnRow) (initial_balance : ℚ) :
    List (List (Option XVal)) :=
  headerRow :: openingRow initial_balance :: df.map dataRow

/-- Python's `str()` of a cell value as used by the width scan.  Numeric
cells hold float values; the rendering is modelled exactly for integral
floats (`str(304205.0) = "304205.0"`), which covers every value the
accompanying theorems evaluate; non-integral values are rendered as
`num/den`. -/
def pyStr : XVal → String
  | .s v => v
  | .n q => if q.den = 1 then toString q.num ++ ".0"
            else toString q.num ++ "/" ++ toString q.den

/-- Rendering of a scanned cell, app.py line 118, which takes str of
cell.value: a cell the code never wrote has value None, and str of None is
the 4-character text "None". -/
def cellStr : Option XVal → String
  | none => "None"
  | some v => pyStr v

/-- Column `c` (0-indexed) of the worksheet: the cells of that column in
every row of the used range, as iterated by `ws.columns`. -/
def columnOf (sheet : List (List (Option XVal))) (c : Nat) : List (Option XVal) :=
  sheet.map (fun row => (row.get? c).join)

/-- The width-scan loop body (app.py lines 114-121): running maximum of
`len(str(cell.value))` over the cells of one column, starting from 0. -/
def maxLength (cells : List (Option XVal)) : Nat :=
  cells.foldl (fun m cell => max m (cellStr cell).length) 0

/-- The width cap of app.py line 122: adjusted width is
min(max length + 2, 50). -/
def adjustedWidth (cells : List (Option XVal)) : Nat :=
  min (maxLength cells + 2) 50

/-- The widths assigned to the 7 columns of the exported sheet
(app.py lines 113-123). -/
def columnWidths (sheet : List (List (Option XVal))) : List Nat :=
  (List.range 7).map (fun c => adjustedWidth (columnOf sheet c))

/-- The claim's reading of a cell's text length, for refinement comparison:
a written cell contributes the length of its text, a blank cell carries no
text and contributes 0. -/
def specCellTextLen : Option XVal → Nat
  | none => 0
  | some v => (pyStr v).length

/-- The claim's width formula, for refinement comparison:
`min(maxObservedCellTextLength + 2, 50)` with blank cells contributing no
text. -/
def specWidth (cells : List (Option XVal)) : Nat :=
  min ((cells.map specCellTextLen).foldr max 0 + 2) 50

end Ledger

namespace Ledger

theorem processRow_fst (bal dr cr : ℚ) : (processRow bal dr cr).1 = bal + eff dr cr := by
  unfold processRow eff
  split_ifs <;> ring

theorem effSum_cons (r : RawRow) (rs : List RawRow) :
    effSum (r :: rs) = eff (toNumeric r.dr) (toNumeric r.cr) + effSum rs := by
  simp [effSum]

theorem calcRows_ne_nil (bal : ℚ) (r : RawRow) (rs : List RawRow) :
    calcRows bal (r :: rs) ≠ [] := by
  simp [calcRows]

theorem lastBalance (rows : List RawRow) :
    ∀ bal : ℚ, rows ≠ [] →
      ((calcRows bal rows).map AnnRow.balance).getLast? = some (bal + effSum rows) := by
  induction rows with
  | nil => intro bal h; exact absurd rfl h
  | cons r rs ih =>
    intro bal _
    cases rs with
    | nil =>
      simp [calcRows, effSum, processRow_fst]
    | cons r2 rs2 =>
      have step := processRow bal (toNumeric r.dr) (toNumeric r.cr)
      show ((calcRows bal (r :: r2 :: rs2)).map AnnRow.balance).getLast? = _
      rw [show calcRows bal (r :: r2 :: rs2) =
            { date := r.date, particulars := r.particulars, cf := r.cf,
              dr := toNumeric r.dr, cr := toNumeric r.cr,
              balance := (processRow bal (toNumeric r.dr) (toNumeric r.cr)).1,
              type := (processRow bal (toNumeric r.dr) (toNumeric r.cr)).2 } ::
              calcRows (processRow bal (toNumeric r.dr) (toNumeric r.cr)).1 (r2 :: rs2)
          from rfl]
      rw [List.map_cons]
      rcases h2 : calcRows (processRow bal (toNumeric r.dr) (toNumeric r.cr)).1 (r2 :: rs2) with
        _ | ⟨a, as⟩
      · exact absurd h2 (calcRows_ne_nil _ _ _)
      · rw [List.map_cons, List.getLast?_cons_cons, ← List.map_cons, ← h2,
          ih _ (List.cons_ne_nil _ _), processRow_fst, effSum_cons]
        rw [effSum_cons, effSum_cons]
        ring_nf

theorem eff_eq_sub (dr cr : ℚ) (h1 : 0 ≤ dr) (h2 : 0 ≤ cr)
    (h3 : ¬(0 < dr ∧ 0 < cr)) : eff dr cr = cr - dr := by
  unfold eff
  split_ifs with hd hc
  · have hcr : cr = 0 := le_antisymm (not_lt.mp fun hcr => h3 ⟨hd, hcr⟩) h2
    rw [hcr]; ring
  · have hdr : dr = 0 := le_antisymm (not_lt.mp hd) h1
    rw [hdr]; ring
  · have hdr : dr = 0 := le_antisymm (not_lt.mp hd) h1
    have hcr : cr = 0 := le_antisymm (not_lt.mp hc) h2
    rw [hdr, hcr]; ring

theorem effSum_eq_sub (rows : List RawRow)
    (h : ∀ r ∈ rows, 0 ≤ toNumeric r.dr ∧ 0 ≤ toNumeric r.cr ∧
          ¬(0 < toNumeric r.dr ∧ 0 < toNumeric r.cr)) :
    effSum rows = sumCr rows - sumDr rows := by
  induction rows with
  | nil => simp [effSum, sumCr, sumDr]
  | cons r rs ih =>
    obtain ⟨h1, h2, h3⟩ := h r (List.mem_cons_self r rs)
    rw [effSum_cons, eff_eq_sub _ _ h1 h2 h3,
      ih (fun x hx => h x (List.mem_cons_of_mem r hx))]
    simp only [sumCr, sumDr, List.map_cons, List.sum_cons]
    ring

/-- C1 (amended): for a nonempty sequence of rows in which, after numeric
coercion, every row has nonnegative debit and credit amounts and no row has
both amounts strictly positive, the balance recorded on the final row of
`calculate_balance_and_type rows B` equals `B + sum(creditAmount) -
sum(debitAmount)`.  (Without the no-row-has-both restriction the formula
fails: the `elif` applies only the debit of such a row.) -/
theorem C1_final_balance (rows : List RawRow) (B : ℚ) (hne : rows ≠ [])
    (h : ∀ r ∈ rows, 0 ≤ toNumeric r.dr ∧ 0 ≤ toNumeric r.cr ∧
          ¬(0 < toNumeric r.dr ∧ 0 < toNumeric r.cr)) :
    ((calculate_balance_and_type rows B).map AnnRow.balance).getLast? =
      some (B + sumCr rows - sumDr rows) := by
  rw [calculate_balance_and_type, lastBalance rows B hne, effSum_eq_sub rows h]
  ring_nf

/-- C1 witness: the spec's own scenario (opening 1000, rows
[(0,500),(200,0),(0,0)]) instantiates the amended claim. -/
theorem C1_final_balance_witness :
    ((calculate_balance_and_type
        [⟨none, "a", none, .num 0, .num 500⟩,
         ⟨none, "b", none, .num 200, .num 0⟩,
         ⟨none, "c", none, .num 0, .num 0⟩] 1000).map AnnRow.balance).getLast? =
      some (1000 + sumCr
        [⟨none, "a", none, .num 0, .num 500⟩,
         ⟨none, "b", none, .num 200, .num 0⟩,
         ⟨none, "c", none, .num 0, .num 0⟩] - sumDr
        [⟨none, "a", none, .num 0, .num 500⟩,
         ⟨none, "b", none, .num 200, .num 0⟩,
         ⟨none, "c", none, .num 0, .num 0⟩]) := by
  apply C1_final_balance
  · simp
  · intro r hr
    fin_cases hr <;> norm_num [toNumeric]

/-- C1 counterexample: on the single row with debit 1 and credit 1 and
opening balance 0 the code records final balance -1 (the credit is ignored
because the debit branch fires first), while the claimed formula
`B + sum(credit) - sum(debit)` gives 0. -/
theorem C1_counterexample :
    ((calculate_balance_and_type [⟨none, "x", none, .num 1, .num 1⟩] 0).map
        AnnRow.balance).getLast? = some (-1) ∧
      (0 : ℚ) + sumCr [⟨none, "x", none, .num 1, .num 1⟩] -
        sumDr [⟨none, "x", none, .num 1, .num 1⟩] = 0 ∧
      (-1 : ℚ) ≠ 0 := by
  refine ⟨?_, ?_, by norm_num⟩
  · norm_num [calculate_balance_and_type, calcRows, processRow, toNumeric]
  · norm_num [sumCr, sumDr, toNumeric]

theorem type_rule_aux (rows : List RawRow) :
    ∀ (B : ℚ) (r : AnnRow), r ∈ calcRows B rows →
      (r.type = "Dr" ↔ 0 < r.dr) ∧
      (r.type = "Cr" ↔ r.dr ≤ 0 ∧ 0 < r.cr) ∧
      (r.type = "" ↔ r.dr ≤ 0 ∧ r.cr ≤ 0) := by
  induction rows with
  | nil => intro B r hr; simp [calcRows] at hr
  | cons x xs ih =>
    intro B r hr
    rw [show calcRows B (x :: xs) =
        ⟨x.date, x.particulars, x.cf, toNumeric x.dr, toNumeric x.cr,
          (processRow B (toNumeric x.dr) (toNumeric x.cr)).1,
          (processRow B (toNumeric x.dr) (toNumeric x.cr)).2⟩ ::
          calcRows (processRow B (toNumeric x.dr) (toNumeric x.cr)).1 xs from rfl,
      List.mem_cons] at hr
    rcases hr with rfl | hr
    · unfold processRow
      by_cases hd : 0 < toNumeric x.dr
      · have h1 : ¬ toNumeric x.dr ≤ 0 := not_le.mpr hd
        simp [hd, h1]
      · by_cases hc : 0 < toNumeric x.cr
        · have h1 : toNumeric x.dr ≤ 0 := not_lt.mp hd
          have h2 : ¬ toNumeric x.cr ≤ 0 := not_le.mpr hc
          simp [hd, hc, h1, h2]
        · simp [hd, hc, not_lt.mp hd, not_lt.mp hc]
    · exact ih _ r hr

/-- C2 (amended): in every output row of `calculate_balance_and_type`,
`type = "Dr"` iff the coerced debit is strictly positive; `type = "Cr"` iff
the coerced debit is ≤ 0 — not merely = 0, since a negative debit also falls
through to the credit branch — and the coerced credit is strictly positive;
and `type = ""` otherwise (debit checked first). -/
theorem C2_type_rule (rows : List RawRow) (B : ℚ) (r : AnnRow)
    (hr : r ∈ calculate_balance_and_type rows B) :
    (r.type = "Dr" ↔ 0 < r.dr) ∧
    (r.type = "Cr" ↔ r.dr ≤ 0 ∧ 0 < r.cr) ∧
    (r.type = "" ↔ r.dr ≤ 0 ∧ r.cr ≤ 0) :=
  type_rule_aux rows B r hr

/-- C2 witness: the type rule instantiated on the output row produced by a
single credit-500 row with opening balance 0. -/
theorem C2_type_rule_witness :
    ((⟨none, "a", none, 0, 500, 500, "Cr"⟩ : AnnRow).type = "Dr" ↔
        (0 : ℚ) < (⟨none, "a", none, 0, 500, 500, "Cr"⟩ : AnnRow).dr) ∧
    ((⟨none, "a", none, 0, 500, 500, "Cr"⟩ : AnnRow).type = "Cr" ↔
        (⟨none, "a", none, 0, 500, 500, "Cr"⟩ : AnnRow).dr ≤ 0 ∧
          (0 : ℚ) < (⟨none, "a", none, 0, 500, 500, "Cr"⟩ : AnnRow).cr) ∧
    ((⟨none, "a", none, 0, 500, 500, "Cr"⟩ : AnnRow).type = "" ↔
        (⟨none, "a", none, 0, 500, 500, "Cr"⟩ : AnnRow).dr ≤ 0 ∧
          (⟨none, "a", none, 0, 500, 500, "Cr"⟩ : AnnRow).cr ≤ 0) :=
  C2_type_rule [⟨none, "a", none, .num 0, .num 500⟩] 0 _
    (by norm_num [calculate_balance_and_type, calcRows, processRow, toNumeric])

/-- C2 counterexample: the row with coerced debit -1 and credit 1 is tagged
"Cr" although its debit amount is not 0, refuting "type = Credit iff
debitAmount == 0 and creditAmount > 0" as stated. -/
theorem C2_counterexample :
    ((calculate_balance_and_type [⟨none, "x", none, .num (-1), .num 1⟩] 0).map
        (fun r => (r.type, r.dr))) = [("Cr", (-1 : ℚ))] ∧ ¬((-1 : ℚ) = 0) := by
  constructor
  · norm_num [calculate_balance_and_type, calcRows, processRow, toNumeric]
  · norm_num

theorem processRow_shift (bal d dr cr : ℚ) :
    processRow (bal + d) dr cr =
      ((processRow bal dr cr).1 + d, (processRow bal dr cr).2) := by
  unfold processRow
  split_ifs <;> simp <;> ring

/-- C3: recomputing with opening balance `B + d` (in particular 2000 instead
of 1000) yields the same annotated sequence with every row's balance shifted
by exactly `+d` and every row's type unchanged. -/
theorem C3_opening_shift (rows : List RawRow) (B d : ℚ) :
    calculate_balance_and_type rows (B + d) =
      (calculate_balance_and_type rows B).map
        (fun r => { r with balance := r.balance + d }) := by
  rw [calculate_balance_and_type, calculate_balance_and_type]
  induction rows generalizing B with
  | nil => simp [calcRows]
  | cons x xs ih =>
    simp only [calcRows, List.map_cons]
    rw [processRow_shift]
    exact congrArg₂ _ rfl (ih _)

/-- C4: recomputation is idempotent — running the engine on its own output
(with the derived balance/type columns stripped and the already-coerced
amounts fed back as numeric cells) with the same opening balance returns the
same annotated sequence. -/
theorem C4_idempotent (rows : List RawRow) (B : ℚ) :
    calculate_balance_and_type ((calculate_balance_and_type rows B).map stripDerived) B =
      calculate_balance_and_type rows B := by
  rw [calculate_balance_and_type, calculate_balance_and_type]
  induction rows generalizing B with
  | nil => simp [calcRows]
  | cons x xs ih =>
    simp only [calcRows, List.map_cons, stripDerived, toNumeric]
    exact congrArg₂ _ rfl (ih _)

/-- C5: a row whose debit field fails numeric parsing is coerced to zero —
with any credit of 500 it produces output identical to the same row with
debit explicitly 0, in any position of any surrounding ledger and for any
opening balance; the engine is a total function on such inputs. -/
theorem C5_coerce_invalid (B : ℚ) (pre post : List RawRow)
    (date : Option String) (part : String) (cf : Option String) :
    calculate_balance_and_type (pre ++ ⟨date, part, cf, .invalid, .num 500⟩ :: post) B =
      calculate_balance_and_type (pre ++ ⟨date, part, cf, .num 0, .num 500⟩ :: post) B := by
  rw [calculate_balance_and_type, calculate_balance_and_type]
  induction pre generalizing B with
  | nil => rfl
  | cons x xs ih =>
    simp only [List.cons_append, calcRows]
    exact congrArg₂ _ rfl (ih _)

/-- C6: the export of an N-row annotated ledger has exactly N + 2 content
rows — row 1 the fixed header row, row 2 the synthetic opening-balance
marker (Particulars "Opening Balance", Balance column `B`, Type column
"Opening", Debit/Credit cells blank), rows 3..N+2 the data rows in input
order; an empty ledger still yields the header and opening-balance rows. -/
theorem C6_export_layout (df : List AnnRow) (B : ℚ) :
    (create_excel_download df B).length = df.length + 2 ∧
    (create_excel_download df B).get? 0 = some headerRow ∧
    ((create_excel_download df B).get? 1).bind (fun row => row.get? 1) =
      some (some (.s "Opening Balance")) ∧
    ((create_excel_download df B).get? 1).bind (fun row => row.get? 5) =
      some (some (.n B)) ∧
    ((create_excel_download df B).get? 1).bind (fun row => row.get? 6) =
      some (some (.s "Opening")) ∧
    ((create_excel_download df B).get? 1).bind (fun row => row.get? 3) = some none ∧
    ((create_excel_download df B).get? 1).bind (fun row => row.get? 4) = some none ∧
    (∀ i : Nat, (create_excel_download df B).get? (i + 2) = (df.get? i).map dataRow) := by
  refine ⟨?_, rfl, rfl, rfl, rfl, rfl, rfl, fun i => ?_⟩
  · simp [create_excel_download]
  · simp [create_excel_download]

/-- C7: in a data row the Debit cell is written (with the debit amount) iff
the debit is strictly positive and is left entirely blank otherwise, and
likewise for the Credit cell; the Balance cell and the Type cell are always
written, the latter including the empty label.  The concrete scenario: the
row {debit 0, credit 0} with opening balance 0 exports with both amount
cells blank, balance 0 and type "". -/
theorem C7_cell_rules (r : AnnRow) :
    ((dataRow r).get? 3 = some (some (.n r.dr)) ↔ 0 < r.dr) ∧
    ((dataRow r).get? 3 = some none ↔ ¬ 0 < r.dr) ∧
    ((dataRow r).get? 4 = some (some (.n r.cr)) ↔ 0 < r.cr) ∧
    ((dataRow r).get? 4 = some none ↔ ¬ 0 < r.cr) ∧
    (dataRow r).get? 5 = some (some (.n r.balance)) ∧
    (dataRow r).get? 6 = some (some (.s r.type)) ∧
    (create_excel_download
        (calculate_balance_and_type [⟨none, "x", none, .num 0, .num 0⟩] 0) 0).get? 2 =
      some [none, some (.s "x"), none, none, none, some (.n 0), some (.s "")] := by
  refine ⟨?_, ?_, ?_, ?_, ?_, ?_, ?_⟩
  · by_cases h : 0 < r.dr <;> simp [dataRow, h]
  · by_cases h : 0 < r.dr <;> simp [dataRow, h]
  · by_cases h : 0 < r.cr <;> simp [dataRow, h]
  · by_cases h : 0 < r.cr <;> simp [dataRow, h]
  · simp [dataRow]
  · simp [dataRow]
  · norm_num [create_excel_download, dataRow, calculate_balance_and_type, calcRows,
      processRow, toNumeric]

theorem foldl_max_eq (l : List (Option XVal)) :
    ∀ a : Nat, l.foldl (fun m cell => max m (cellStr cell).length) a =
      max a ((l.map (fun cell => (cellStr cell).length)).foldr max 0) := by
  induction l with
  | nil => intro a; simp
  | cons x xs ih =>
    intro a
    simp only [List.foldl_cons, List.map_cons, List.foldr_cons, ih, max_assoc]

/-- C8 (amended): each column's width equals `min(m + 2, 50)` where `m` is
the maximum over every cell of that column, header cell included, of the
length of the cell's rendered text; a never-written (blank) cell in the
scanned range renders as the 4-character text "None" (Python `str(None)`)
rather than contributing no text. -/
theorem C8_column_widths (df : List AnnRow) (B : ℚ) :
    columnWidths (create_excel_download df B) =
      (List.range 7).map (fun c =>
        min (((columnOf (create_excel_download df B) c).map
            (fun cell => (cellStr cell).length)).foldr max 0 + 2) 50) := by
  unfold columnWidths adjustedWidth maxLength
  refine List.map_congr_left (fun c _ => ?_)
  rw [foldl_max_eq]
  simp

/-- C8 counterexample: for the exported single-row ledger with no C/F
values, the C/F column holds the 3-character header "C/F" and two blank
cells; the code's width for that column is 6 (the blanks scan as
`str(None) = "None"`, length 4), while the claimed formula — maximum
observed cell text length, blanks carrying no text — gives min(3+2, 50) = 5. -/
theorem C8_counterexample :
    (columnWidths (create_excel_download
        (calculate_balance_and_type [⟨none, "x", none, .num 0, .num 0⟩] 0) 0)).get? 2 =
      some 6 ∧
    specWidth (columnOf (create_excel_download
        (calculate_balance_and_type [⟨none, "x", none, .num 0, .num 0⟩] 0) 0) 2) = 5 ∧
    (6 : ℕ) ≠ 5 := by
  have hdf : calculate_balance_and_type [⟨none, "x", none, .num 0, .num 0⟩] 0 =
      [⟨none, "x", none, 0, 0, 0, ""⟩] := by
    norm_num [calculate_balance_and_type, calcRows, processRow, toNumeric]
  have hrow : dataRow ⟨none, "x", none, 0, 0, 0, ""⟩ =
      [none, some (.s "x"), none, none, none, some (.n 0), some (.s "")] := by
    norm_num [dataRow]
  have hcol : columnOf (create_excel_download
      (calculate_balance_and_type [⟨none, "x", none, .num 0, .num 0⟩] 0) 0) 2 =
      [some (.s "C/F"), none, none] := by
    rw [hdf]
    simp [columnOf, create_excel_download, headerRow, headers, openingRow, hrow]
  refine ⟨?_, ?_, by norm_num⟩
  · rw [show (columnWidths (create_excel_download
        (calculate_balance_and_type [⟨none, "x", none, .num 0, .num 0⟩] 0) 0)).get? 2 =
        some (adjustedWidth (columnOf (create_excel_download
          (calculate_balance_and_type [⟨none, "x", none, .num 0, .num 0⟩] 0) 0) 2)) by
      simp [columnWidths]]
    rw [hcol]
    rfl
  · rw [hcol]
    rfl

/-- C9: `calculate_balance_and_type` does not mutate its input — line 26
`df = df.copy()` directs every write to a fresh copy, so after the call the
caller's rows are exactly the rows passed in, and the returned dataframe is
the freshly annotated copy. -/
theorem C9_no_mutation (rows : List RawRow) (B : ℚ) :
    (calculate_balance_and_type_call rows B).1 = rows ∧
    (calculate_balance_and_type_call rows B).2 = calculate_balance_and_type rows B :=
  ⟨rfl, rfl⟩

/-- C10: the Date cell (column 1) of the opening-balance marker row carries
the literal text "Opening Balance" in every exported document, whereas the
Date cell of a data row whose date is missing is left blank. -/
theorem C10_opening_date_cell (df : List AnnRow) (B : ℚ) (r : AnnRow)
    (hdate : r.date = none) :
    ((create_excel_download df B).get? 1).bind (fun row => row.get? 0) =
      some (some (.s "Opening Balance")) ∧
    (dataRow r).get? 0 = some none := by
  refine ⟨rfl, ?_⟩
  simp [dataRow, hdate]

/-- C10 witness: instantiated on the empty ledger with opening balance 0 and
a dateless annotated row. -/
theorem C10_opening_date_cell_witness :
    ((create_excel_download [] 0).get? 1).bind (fun row => row.get? 0) =
      some (some (.s "Opening Balance")) ∧
    (dataRow ⟨none, "x", none, 0, 0, 0, ""⟩).get? 0 = some none :=
  C10_opening_date_cell [] 0 ⟨none, "x", none, 0, 0, 0, ""⟩ rfl

end Ledger

-- sanity examples (spec §8.6): opening 1000, rows [(0,500),(200,0),(0,0)]
example :
    (Ledger.calculate_balance_and_type
      [⟨none, "a", none, .num 0, .num 500⟩,
       ⟨none, "b", none, .num 200, .num 0⟩,
       ⟨none, "c", none, .num 0, .num 0⟩] 1000).map
      (fun r => (r.balance, r.type)) =
    [(1500, "Cr"), (1300, "Dr"), (1300, "")] := by
  norm_num [Ledger.calculate_balance_and_type, Ledger.calcRows, Ledger.processRow,
    Ledger.toNumeric]
